import Mathlib

/-!
# Verification of the `optimal_ollama` benchmark core

A shallow embedding of `optimal_ollama.py`: the interactive input validation,
the log-based telemetry extraction (`read_log_lines`, `get_gpu_stats_from_logs`),
the per-step metric derivation, the stop-criteria chain, the synthetic prompt
generator (`generate_dummy_prompt`), and the context-size sweep loop of
`run_benchmark`.

Modelling conventions:
* Python floats are modelled as exact rationals (`ℚ`); the float literals
  `0.99`, `0.1`, `1e9`, `3.5` become `99/100`, `1/10`, `1000000000`, `7/2`.
* Python ints are `ℤ` (context sizes) or `ℕ` (HTTP status, token targets).
* Network and log I/O are oracles passed in as functions: each probe step's
  HTTP outcome and each log read's outcome are free parameters, and the
  loop body is a pure function of them, exactly as the source computes.
* A `try/except` that swallows errors is modelled by an `Option`-valued
  outcome: `Option.none` stands for the exception path.
* The `while` loop of `run_benchmark` is modelled with explicit fuel
  (`sweepFuel`); `run_benchmark_model` supplies fuel `(max_ctx + 1 - start_ctx)`,
  which theorem `c8_sweep_terminates` proves sufficient whenever the
  configured step size is positive, so for positive steps the model computes
  the exact trace of the source loop.
-/

namespace OptimalOllama

/-! ## Input validation (src lines 33-45, 319-328) -/

/-- `validate_int` (src 40-45): `try: int(current); return True` /
`except ValueError: return False`. An entered string is abstracted to the
outcome of Python's `int(...)` on it: `Option.some n` when parsing
succeeds with value `n`, `Option.none` when it raises `ValueError`.
`validate_int` accepts exactly the parseable entries, with no constraint
on the parsed value. -/
def validate_int (parsed : Option ℤ) : Bool :=
  parsed.isSome

/-- Acceptance of the step-size answer in `setup_benchmark` (src 322, 328):
the prompt re-asks while `validate_int` fails; once it passes, the parsed
integer is stored into `config.step_size` unchanged and the run proceeds
with it. `Option.none` models the answer never being accepted. -/
def accept_step_size (parsed : Option ℤ) : Option ℤ :=
  if validate_int parsed then parsed else Option.none

/-! ## Telemetry (src lines 140-179) -/

/-- The three log modes of `BenchmarkConfig.log_mode` (src 53):
`"docker"`, `"file"` and `"none"` (the last one named `noLogs` here). -/
inductive LogMode where
  | docker
  | file
  | noLogs
deriving DecidableEq

/-- A log line abstracted to its match result against the llama.cpp memory
pattern `runner.size="<float> GiB" ... runner.vram="<float> GiB"`
(src 172): `Option.some (size, vram)` carries the two parsed gigabyte
quantities when the pattern matches, `Option.none` when it does not. -/
abbrev LogLine := Option (ℚ × ℚ)

/-- Outcome of the mode-specific log acquisition (docker tail or file tail,
src 144-163): `Option.none` models a raised exception or a missing file,
`Option.some lines` the acquired window of lines. -/
abbrev ReadOutcome := Option (List LogLine)

/-- `read_log_lines` (src 140-165): in `"none"` mode no branch runs and the
empty content yields no lines; in the docker and file modes the acquired
lines are returned, with every exception path returning `[]`. -/
def read_log_lines (mode : LogMode) (acquired : ReadOutcome) : List LogLine :=
  match mode with
  | LogMode.noLogs => []
  | _ => acquired.getD []

/-- The scan inside `get_gpu_stats_from_logs` (src 170-178), already applied
to the reversed line list: the first matching line yields
`(size, vram, percent)` with `percent = vram / size * 100` when `size > 0`
and `0` otherwise; no match yields the zero sample. -/
def scan_mem_lines : List LogLine → ℚ × ℚ × ℚ
  | [] => (0, 0, 0)
  | Option.some (size, vram) :: _ =>
      (size, vram, if 0 < size then vram / size * 100 else 0)
  | Option.none :: rest => scan_mem_lines rest

/-- `get_gpu_stats_from_logs` (src 167-179): iterates `reversed(lines)` and
returns the first match; the surrounding `try/except` (returning `(0,0,0)`)
is absorbed into the `ReadOutcome` handling of `read_log_lines`, so the
function is total and never raises. -/
def get_gpu_stats_from_logs (mode : LogMode) (acquired : ReadOutcome) : ℚ × ℚ × ℚ :=
  scan_mem_lines (read_log_lines mode acquired).reverse

/-! ## Configuration (src lines 49-66) -/

/-- `BenchmarkConfig` (src 49-66), restricted to the fields the benchmark
loop reads. Context parameters are `ℤ` because `int(...)` acceptance puts
no sign restriction on them (see `accept_step_size`). -/
structure BenchmarkConfig where
  start_ctx : ℤ
  max_ctx : ℤ
  step_size : ℤ
  log_mode : LogMode
  min_gpu_percent : ℚ
  max_sys_ram_gb : ℚ
  max_vram_budget_gb : ℚ
  min_eval_tps : ℚ
  max_duration_seconds : ℚ
deriving DecidableEq

/-! ## Response metrics (src lines 434-446) -/

/-- The JSON fields read from a generate response via `data.get(_, 0)`
(src 439-442): absent fields default to `0`, so each field is simply a
number. -/
structure GenerateData where
  total_duration : ℚ
  eval_count : ℚ
  eval_duration : ℚ
  prompt_eval_count : ℚ
  prompt_eval_duration : ℚ
deriving DecidableEq

/-- Outcome of the measure request `requests.post(...)` (src 431):
`response status data` is a delivered HTTP response with status code and
parsed body, `transportError` is the exception path (timeout, connection
failure) of the surrounding `try/except` (src 519-521). -/
inductive MeasureOutcome where
  | response (status : ℕ) (data : GenerateData)
  | transportError
deriving DecidableEq

/-- Python's `x or 1` on a number (src 440-441): `x` when nonzero (truthy),
`1` when `x` is zero (falsy). -/
def orOne (x : ℚ) : ℚ :=
  if x = 0 then 1 else x

/-- Nanoseconds per second, the literal `1e9` (src 439-441). -/
def nanos : ℚ := 1000000000

/-- `total_dur` (src 439). -/
def total_dur (d : GenerateData) : ℚ := d.total_duration / nanos

/-- `eval_tps` (src 440): `eval_count / (eval_duration / 1e9 or 1)`. -/
def eval_tps (d : GenerateData) : ℚ := d.eval_count / orOne (d.eval_duration / nanos)

/-- `prompt_tps` (src 441). -/
def prompt_tps (d : GenerateData) : ℚ :=
  d.prompt_eval_count / orOne (d.prompt_eval_duration / nanos)

/-- `actual_ctx` (src 442): the server-reported `prompt_eval_count`. -/
def actual_ctx (d : GenerateData) : ℚ := d.prompt_eval_count

/-! ## Stop criteria (src lines 449-486) -/

/-- The status tags written to the CSV `Status` column (src 453-486);
`truncated` carries the interpolated actual context of
`f"TRUNCATED ({actual_ctx})"`. -/
inductive Status where
  | ok
  | truncated (actual : ℚ)
  | failGpuPercent
  | failVramBudget
  | failRam
  | failSpeed
  | failTime
deriving DecidableEq

/-- The `Stop_Reason` column values (src 452-486), with the interpolated
measurement and threshold where the source interpolates them. -/
inductive StopReason where
  | empty
  | contextLimitReached
  | gpuBelowMin (gpu min : ℚ)
  | vramOverBudget (vram budget : ℚ)
  | ramOverLimit (ram limit : ℚ)
  | speedBelowMin (tps min : ℚ)
  | timeOverMax (dur max : ℚ)
deriving DecidableEq

/-- `ignore_gpu_check` (src 449): log mode `"none"`, or a zero utilization
reading on Darwin. -/
def ignore_gpu_check (mode : LogMode) (gpu_percent : ℚ) (isDarwin : Bool) : Bool :=
  decide (mode = LogMode.noLogs) || (decide (gpu_percent = 0) && isDarwin)

/-- One step's collected metrics, as used by the criteria chain
(src 452-486). -/
structure StepMetrics where
  actual_ctx : ℚ
  eval_tps : ℚ
  total_dur : ℚ
  gpu_percent : ℚ
  sys_ram_used : ℚ
  vram_gib : ℚ
deriving DecidableEq

/-- The evaluator's result: `status`, `stop_reason` and `should_stop`
(src 452-454). -/
structure Verdict where
  status : Status
  stop_reason : StopReason
  should_stop : Bool
deriving DecidableEq

/-- The `if/elif` stop-criteria chain of `run_benchmark` (src 452-486),
verbatim: truncation, GPU floor, VRAM budget, system RAM, speed, time;
otherwise `OK` with empty reason and no stop. -/
def evaluate_stop_criteria (cfg : BenchmarkConfig) (ignoreGpu : Bool)
    (target : ℤ) (m : StepMetrics) : Verdict :=
  if m.actual_ctx < (target : ℚ) * (99 / 100) then
    ⟨Status.truncated m.actual_ctx, StopReason.contextLimitReached, true⟩
  else if ignoreGpu = false ∧ m.gpu_percent < cfg.min_gpu_percent - 1 / 10 then
    ⟨Status.failGpuPercent, StopReason.gpuBelowMin m.gpu_percent cfg.min_gpu_percent, true⟩
  else if m.vram_gib > cfg.max_vram_budget_gb then
    ⟨Status.failVramBudget, StopReason.vramOverBudget m.vram_gib cfg.max_vram_budget_gb, true⟩
  else if m.sys_ram_used > cfg.max_sys_ram_gb then
    ⟨Status.failRam, StopReason.ramOverLimit m.sys_ram_used cfg.max_sys_ram_gb, true⟩
  else if m.eval_tps < cfg.min_eval_tps then
    ⟨Status.failSpeed, StopReason.speedBelowMin m.eval_tps cfg.min_eval_tps, true⟩
  else if m.total_dur > cfg.max_duration_seconds then
    ⟨Status.failTime, StopReason.timeOverMax m.total_dur cfg.max_duration_seconds, true⟩
  else ⟨Status.ok, StopReason.empty, false⟩

/-- Modelled from the spec's words for the refinement claim about criteria
ordering: the six criteria as an explicit priority-ordered list of
(fires?, status, reason) entries. -/
def criteria_list (cfg : BenchmarkConfig) (ignoreGpu : Bool)
    (target : ℤ) (m : StepMetrics) : List (Bool × Status × StopReason) :=
  [ (decide (m.actual_ctx < (target : ℚ) * (99 / 100)),
      Status.truncated m.actual_ctx, StopReason.contextLimitReached),
    (decide (ignoreGpu = false ∧ m.gpu_percent < cfg.min_gpu_percent - 1 / 10),
      Status.failGpuPercent, StopReason.gpuBelowMin m.gpu_percent cfg.min_gpu_percent),
    (decide (m.vram_gib > cfg.max_vram_budget_gb),
      Status.failVramBudget, StopReason.vramOverBudget m.vram_gib cfg.max_vram_budget_gb),
    (decide (m.sys_ram_used > cfg.max_sys_ram_gb),
      Status.failRam, StopReason.ramOverLimit m.sys_ram_used cfg.max_sys_ram_gb),
    (decide (m.eval_tps < cfg.min_eval_tps),
      Status.failSpeed, StopReason.speedBelowMin m.eval_tps cfg.min_eval_tps),
    (decide (m.total_dur > cfg.max_duration_seconds),
      Status.failTime, StopReason.timeOverMax m.total_dur cfg.max_duration_seconds) ]

/-- Modelled from the spec's words: take the first criterion in priority
order whose condition fires (short-circuit), else succeed with `OK`,
empty reason, and continue. -/
def spec_stop_policy (cfg : BenchmarkConfig) (ignoreGpu : Bool)
    (target : ℤ) (m : StepMetrics) : Verdict :=
  match (criteria_list cfg ignoreGpu target m).find? (fun c => c.1) with
  | Option.some c => ⟨c.2.1, c.2.2, true⟩
  | Option.none => ⟨Status.ok, StopReason.empty, false⟩

/-! ## Sweep loop (src lines 351-524) -/

/-- One CSV result row (src 493-501), restricted to the fields computed by
the loop; the timestamp, server version, model name, digest and the three
reserved trailing columns are environment-only strings and are omitted. -/
structure CsvRow where
  target : ℤ
  actual : ℚ
  eval_tps : ℚ
  prompt_tps : ℚ
  total_dur : ℚ
  gpu_percent : ℚ
  sys_ram_used : ℚ
  vram_gib : ℚ
  status : Status
  stop_reason : StopReason
deriving DecidableEq

/-- One executed loop iteration at a target context size: the timeout the
measure request was issued with, the HTTP outcome, the CSV row written for
it (`Option.none` when the error paths skip the write, src 515-521), and
whether the loop breaks after this step. -/
structure ProbeStep where
  target : ℤ
  timeout : ℚ
  outcome : MeasureOutcome
  row : Option CsvRow
  halts : Bool
deriving DecidableEq

/-- `safe_timeout` (src 428): `max(60, config.max_duration_seconds + 15)`. -/
def safe_timeout (cfg : BenchmarkConfig) : ℚ :=
  max 60 (cfg.max_duration_seconds + 15)

/-- The body of one `while` iteration of `run_benchmark` (src 399-521) at
`current`, given the measure request's outcome. On status 200 the metrics
are derived, telemetry is sampled, the criteria chain runs and a row is
written; on any other status or a transport error the loop prints and
breaks without writing a row. -/
def run_step (cfg : BenchmarkConfig) (isDarwin : Bool)
    (telemetry : ℤ → ReadOutcome) (current : ℤ) (outcome : MeasureOutcome) : ProbeStep :=
  match outcome with
  | MeasureOutcome.response status data =>
      if status = 200 then
        let stats := get_gpu_stats_from_logs cfg.log_mode (telemetry current)
        let size_gib := stats.1
        let vram_gib := stats.2.1
        let gpu_percent := stats.2.2
        let sys_ram_used := max 0 (size_gib - vram_gib)
        let m : StepMetrics :=
          ⟨actual_ctx data, eval_tps data, total_dur data,
            gpu_percent, sys_ram_used, vram_gib⟩
        let ig := ignore_gpu_check cfg.log_mode gpu_percent isDarwin
        let v := evaluate_stop_criteria cfg ig current m
        ⟨current, safe_timeout cfg, outcome,
          Option.some ⟨current, m.actual_ctx, m.eval_tps, prompt_tps data,
            m.total_dur, gpu_percent, sys_ram_used, vram_gib, v.status, v.stop_reason⟩,
          v.should_stop⟩
      else
        ⟨current, safe_timeout cfg, outcome, Option.none, true⟩
  | MeasureOutcome.transportError =>
      ⟨current, safe_timeout cfg, outcome, Option.none, true⟩

/-- The `while current_ctx <= config.max_ctx` loop of `run_benchmark`
(src 399-524) with explicit fuel: run a step, stop after a terminal step,
otherwise advance by `step_size` (src 513). Per-model trace of attempted
steps in order. -/
def sweepFuel (cfg : BenchmarkConfig) (isDarwin : Bool)
    (telemetry : ℤ → ReadOutcome) (responses : ℤ → MeasureOutcome) :
    ℕ → ℤ → List ProbeStep
  | 0, _ => []
  | fuel + 1, current =>
      if current ≤ cfg.max_ctx then
        if (run_step cfg isDarwin telemetry current (responses current)).halts then
          [run_step cfg isDarwin telemetry current (responses current)]
        else
          run_step cfg isDarwin telemetry current (responses current)
            :: sweepFuel cfg isDarwin telemetry responses fuel (current + cfg.step_size)
      else []

/-- One model's sweep in `run_benchmark` (src 397-524): start at
`start_ctx` with fuel `(max_ctx + 1 - start_ctx)`, which suffices whenever
`step_size` is positive (theorem `c8_sweep_terminates`). -/
def run_benchmark_model (cfg : BenchmarkConfig) (isDarwin : Bool)
    (telemetry : ℤ → ReadOutcome) (responses : ℤ → MeasureOutcome) : List ProbeStep :=
  sweepFuel cfg isDarwin telemetry responses
    (cfg.max_ctx + 1 - cfg.start_ctx).toNat cfg.start_ctx

/-- The CSV rows appended during a sweep, in order (src 493-501): one per
step whose success branch executed. -/
def csv_rows (trace : List ProbeStep) : List CsvRow :=
  trace.filterMap (fun st => st.row)

/-! ## Synthetic prompt (src lines 231-235) -/

/-- The filler block of `generate_dummy_prompt` (src 232), as a character
list; Python string slicing and length are `List.take` and `List.length`. -/
def code_block : List Char :=
  "function test() \x7b const x = 100; return x * 2; \x7d // Filler.\n".toList

/-- `generate_dummy_prompt` (src 231-235): `chars_needed = int(target_tokens
* 3.5)` (exact for the integer inputs the program produces, hence
`7 * n / 2` here), `repeat_count = int(chars_needed / len(code_block)) + 1`,
and the repeated block sliced to `chars_needed` characters. -/
def generate_dummy_prompt (target_tokens : ℕ) : List Char :=
  let chars_needed := 7 * target_tokens / 2
  let repeat_count := chars_needed / code_block.length + 1
  (List.flatten (List.replicate repeat_count code_block)).take chars_needed

/-! ## Concrete fixtures for witnesses and counterexamples -/

/-- A permissive configuration whose thresholds never fire on zero
telemetry. -/
def cfgA : BenchmarkConfig :=
  ⟨4096, 8192, 4096, LogMode.docker, 0, 999, 999, 0, 9999⟩

/-- A tiny two-step permissive configuration. -/
def cfgB : BenchmarkConfig :=
  ⟨1, 2, 1, LogMode.docker, 0, 999, 999, 0, 9999⟩

/-- Telemetry oracle: every log read raises. -/
def telemZero : ℤ → ReadOutcome := fun _ => Option.none

/-- Response oracle: the server answers HTTP 500 to every measure request. -/
def respHttp500 : ℤ → MeasureOutcome :=
  fun _ => MeasureOutcome.response 500 ⟨0, 0, 0, 0, 0⟩

/-- A benign response body: large accepted context, instant timings. -/
def dataOk : GenerateData := ⟨0, 0, 0, 100, 0⟩

/-- Response oracle: the server answers HTTP 200 with `dataOk` everywhere. -/
def respOk : ℤ → MeasureOutcome :=
  fun _ => MeasureOutcome.response 200 dataOk

/-- A configuration demanding at least 90 percent GPU utilization. -/
def cfgC : BenchmarkConfig :=
  ⟨1, 2, 1, LogMode.docker, 90, 999, 999, 0, 9999⟩

/-- Metrics with a full accepted context but only 85 percent GPU
utilization. -/
def mGpu : StepMetrics := ⟨1000, 50, 1, 85, 0, 0⟩

/-! ## Helper lemmas -/

theorem run_step_target (cfg : BenchmarkConfig) (d : Bool) (t : ℤ → ReadOutcome)
    (c : ℤ) (o : MeasureOutcome) : (run_step cfg d t c o).target = c := by
  cases o with
  | response s data =>
      by_cases h : s = 200 <;> simp [run_step, h]
  | transportError => rfl

theorem run_step_timeout (cfg : BenchmarkConfig) (d : Bool) (t : ℤ → ReadOutcome)
    (c : ℤ) (o : MeasureOutcome) : (run_step cfg d t c o).timeout = safe_timeout cfg := by
  cases o with
  | response s data =>
      by_cases h : s = 200 <;> simp [run_step, h]
  | transportError => rfl

theorem run_step_outcome (cfg : BenchmarkConfig) (d : Bool) (t : ℤ → ReadOutcome)
    (c : ℤ) (o : MeasureOutcome) : (run_step cfg d t c o).outcome = o := by
  cases o with
  | response s data =>
      by_cases h : s = 200 <;> simp [run_step, h]
  | transportError => rfl

theorem run_step_row_isSome (cfg : BenchmarkConfig) (d : Bool) (t : ℤ → ReadOutcome)
    (c : ℤ) (o : MeasureOutcome) :
    (run_step cfg d t c o).row.isSome = true
      ↔ ∃ dta, o = MeasureOutcome.response 200 dta := by
  cases o with
  | response s data =>
      by_cases h : s = 200
      · subst h
        simp [run_step]
      · simp [run_step, h]
  | transportError => simp [run_step]

theorem sweepFuel_eq_nil_of_lt (cfg : BenchmarkConfig) (d : Bool) (t : ℤ → ReadOutcome)
    (r : ℤ → MeasureOutcome) (fuel : ℕ) (c : ℤ) (h : cfg.max_ctx < c) :
    sweepFuel cfg d t r fuel c = [] := by
  cases fuel with
  | zero => rfl
  | succ n => simp [sweepFuel, not_le.mpr h]

theorem sweepFuel_mem (cfg : BenchmarkConfig) (d : Bool) (t : ℤ → ReadOutcome)
    (r : ℤ → MeasureOutcome) :
    ∀ (fuel : ℕ) (c : ℤ) (st : ProbeStep), st ∈ sweepFuel cfg d t r fuel c →
      ∃ c', st = run_step cfg d t c' (r c') := by
  intro fuel
  induction fuel with
  | zero =>
      intro c st h
      simp [sweepFuel] at h
  | succ n ih =>
      intro c st h
      unfold sweepFuel at h
      by_cases hc : c ≤ cfg.max_ctx
      · rw [if_pos hc] at h
        by_cases hh : (run_step cfg d t c (r c)).halts
        · rw [if_pos hh] at h
          simp at h
          exact ⟨c, h⟩
        · rw [if_neg hh] at h
          rcases List.mem_cons.mp h with h1 | h2
          · exact ⟨c, h1⟩
          · exact ih _ _ h2
      · rw [if_neg hc] at h
        simp at h

theorem sweepFuel_head_target (cfg : BenchmarkConfig) (d : Bool) (t : ℤ → ReadOutcome)
    (r : ℤ → MeasureOutcome) (fuel : ℕ) (c : ℤ) (st : ProbeStep) (rest : List ProbeStep)
    (h : sweepFuel cfg d t r fuel c = st :: rest) : st.target = c := by
  cases fuel with
  | zero => simp [sweepFuel] at h
  | succ n =>
      unfold sweepFuel at h
      by_cases hc : c ≤ cfg.max_ctx
      · rw [if_pos hc] at h
        by_cases hh : (run_step cfg d t c (r c)).halts
        · rw [if_pos hh] at h
          obtain ⟨h1, -⟩ := List.cons.injEq .. ▸ h
          exact h1 ▸ run_step_target cfg d t c (r c)
        · rw [if_neg hh] at h
          obtain ⟨h1, -⟩ := List.cons.injEq .. ▸ h
          exact h1 ▸ run_step_target cfg d t c (r c)
      · rw [if_neg hc] at h
        simp at h

theorem sweepFuel_chain (cfg : BenchmarkConfig) (d : Bool) (t : ℤ → ReadOutcome)
    (r : ℤ → MeasureOutcome) :
    ∀ (fuel : ℕ) (c : ℤ),
      List.Chain' (fun a b => b.target = a.target + cfg.step_size)
        (sweepFuel cfg d t r fuel c) := by
  intro fuel
  induction fuel with
  | zero =>
      intro c
      simp [sweepFuel]
  | succ n ih =>
      intro c
      by_cases hc : c ≤ cfg.max_ctx
      · by_cases hh : (run_step cfg d t c (r c)).halts
        · have hexp : sweepFuel cfg d t r (n + 1) c = [run_step cfg d t c (r c)] := by
            conv_lhs => rw [sweepFuel]
            rw [if_pos hc, if_pos hh]
          rw [hexp]
          simp
        · have hexp : sweepFuel cfg d t r (n + 1) c
              = run_step cfg d t c (r c) :: sweepFuel cfg d t r n (c + cfg.step_size) := by
            conv_lhs => rw [sweepFuel]
            rw [if_pos hc, if_neg hh]
          rw [hexp, List.chain'_cons']
          refine ⟨?_, ih (c + cfg.step_size)⟩
          intro y hy
          cases hr : sweepFuel cfg d t r n (c + cfg.step_size) with
          | nil =>
              rw [hr] at hy
              simp at hy
          | cons a b =>
              rw [hr] at hy
              simp at hy
              subst hy
              rw [sweepFuel_head_target cfg d t r n (c + cfg.step_size) a b hr,
                run_step_target cfg d t c (r c)]
      · rw [sweepFuel_eq_nil_of_lt cfg d t r (n + 1) c (by omega)]
        simp

theorem sweepFuel_stable (cfg : BenchmarkConfig) (d : Bool) (t : ℤ → ReadOutcome)
    (r : ℤ → MeasureOutcome) (hstep : 0 < cfg.step_size) :
    ∀ (f₁ f₂ : ℕ) (c : ℤ), (cfg.max_ctx + 1 - c).toNat ≤ f₁ →
      (cfg.max_ctx + 1 - c).toNat ≤ f₂ →
      sweepFuel cfg d t r f₁ c = sweepFuel cfg d t r f₂ c := by
  intro f₁
  induction f₁ with
  | zero =>
      intro f₂ c h1 h2
      have hc : cfg.max_ctx < c := by omega
      rw [sweepFuel_eq_nil_of_lt cfg d t r 0 c hc, sweepFuel_eq_nil_of_lt cfg d t r f₂ c hc]
  | succ n ih =>
      intro f₂ c h1 h2
      by_cases hc : c ≤ cfg.max_ctx
      · obtain ⟨m, rfl⟩ : ∃ m, f₂ = m + 1 := ⟨f₂ - 1, by omega⟩
        unfold sweepFuel
        rw [if_pos hc, if_pos hc]
        by_cases hh : (run_step cfg d t c (r c)).halts
        · rw [if_pos hh, if_pos hh]
        · rw [if_neg hh, if_neg hh]
          have := ih m (c + cfg.step_size) (by omega) (by omega)
          rw [this]
      · rw [sweepFuel_eq_nil_of_lt cfg d t r (n + 1) c (by omega),
          sweepFuel_eq_nil_of_lt cfg d t r f₂ c (by omega)]

theorem sweepFuel_length_le (cfg : BenchmarkConfig) (d : Bool) (t : ℤ → ReadOutcome)
    (r : ℤ → MeasureOutcome) (hstep : 0 < cfg.step_size) :
    ∀ (fuel : ℕ) (c : ℤ),
      (sweepFuel cfg d t r fuel c).length
        ≤ (cfg.max_ctx - c).toNat / cfg.step_size.toNat + 1 := by
  intro fuel
  induction fuel with
  | zero =>
      intro c
      simp [sweepFuel]
  | succ n ih =>
      intro c
      by_cases hc : c ≤ cfg.max_ctx
      · unfold sweepFuel
        rw [if_pos hc]
        by_cases hh : (run_step cfg d t c (r c)).halts
        · rw [if_pos hh]
          simp
        · rw [if_neg hh]
          simp only [List.length_cons]
          by_cases hcs : c + cfg.step_size ≤ cfg.max_ctx
          · have h1 := ih (c + cfg.step_size)
            have hstep' : 0 < cfg.step_size.toNat := by omega
            have heq : (cfg.max_ctx - c).toNat
                = (cfg.max_ctx - (c + cfg.step_size)).toNat + cfg.step_size.toNat := by omega
            rw [heq, Nat.add_div_right _ hstep']
            omega
          · rw [sweepFuel_eq_nil_of_lt cfg d t r n (c + cfg.step_size) (by omega)]
            simp
      · rw [sweepFuel_eq_nil_of_lt cfg d t r (n + 1) c (by omega)]
        simp

theorem scan_mem_lines_eq_findSome (l : List LogLine) :
    scan_mem_lines l
      = (match l.findSome? id with
          | Option.some (size, vram) => (size, vram, if 0 < size then vram / size * 100 else 0)
          | Option.none => ((0 : ℚ), (0 : ℚ), (0 : ℚ))) := by
  induction l with
  | nil => rfl
  | cons a rest ih =>
      cases a with
      | none =>
          simpa [scan_mem_lines, List.findSome?_cons] using ih
      | some p =>
          cases p with
          | mk size vram => simp [scan_mem_lines, List.findSome?_cons]

theorem csv_rows_length_eq_filter (l : List ProbeStep) :
    (csv_rows l).length = (l.filter (fun st => st.row.isSome)).length := by
  induction l with
  | nil => rfl
  | cons a rest ih =>
      cases ha : a.row with
      | none => simp [csv_rows, List.filterMap_cons, ha, List.filter_cons, ih] at ih ⊢
      | some rw' => simp [csv_rows, List.filterMap_cons, ha, List.filter_cons, ih] at ih ⊢

theorem find_fst_cons_true {β : Type} (x : β) (l : List (Bool × β)) :
    List.find? (fun c => c.1) ((true, x) :: l) = Option.some (true, x) := rfl

theorem find_fst_cons_false {β : Type} (x : β) (l : List (Bool × β)) :
    List.find? (fun c => c.1) ((false, x) :: l) = List.find? (fun c => c.1) l := rfl

/-- Evaluation of the two-success-step trace for `cfgB`: both probe steps
pass every criterion and the ceiling stops the sweep. -/
theorem traceB_eval :
    run_benchmark_model cfgB false telemZero respOk
      = [run_step cfgB false telemZero 1 (respOk 1),
         run_step cfgB false telemZero 2 (respOk 2)] := by
  norm_num [run_benchmark_model, cfgB, sweepFuel, run_step, respOk, evaluate_stop_criteria,
    ignore_gpu_check, get_gpu_stats_from_logs, read_log_lines, scan_mem_lines, telemZero,
    actual_ctx, eval_tps, total_dur, prompt_tps, orOne, nanos, dataOk, safe_timeout]

theorem traceB_length : (run_benchmark_model cfgB false telemZero respOk).length = 2 := by
  rw [traceB_eval]
  rfl

/-! ## Claim theorems -/

/-- C3: the stop-criteria evaluation proceeds in the fixed priority order
truncation, GPU floor, VRAM ceiling, system-RAM ceiling, throughput floor,
duration ceiling, short-circuiting at the first matching criterion (which
sets status and stop reason and marks the step terminal), and yields
status OK, an empty stop reason and a non-terminal step when no criterion
matches: the source's `if/elif` chain equals the first-match policy over
the explicit priority-ordered criteria list. -/
theorem c3_stop_criteria_priority_order (cfg : BenchmarkConfig) (ignoreGpu : Bool)
    (target : ℤ) (m : StepMetrics) :
    evaluate_stop_criteria cfg ignoreGpu target m = spec_stop_policy cfg ignoreGpu target m := by
  unfold evaluate_stop_criteria spec_stop_policy criteria_list
  by_cases h1 : m.actual_ctx < (target : ℚ) * (99 / 100)
  · rw [decide_eq_true h1, find_fst_cons_true, if_pos h1]
  · rw [decide_eq_false h1, find_fst_cons_false, if_neg h1]
    by_cases h2 : ignoreGpu = false ∧ m.gpu_percent < cfg.min_gpu_percent - 1 / 10
    · rw [decide_eq_true h2, find_fst_cons_true, if_pos h2]
    · rw [decide_eq_false h2, find_fst_cons_false, if_neg h2]
      by_cases h3 : m.vram_gib > cfg.max_vram_budget_gb
      · rw [decide_eq_true h3, find_fst_cons_true, if_pos h3]
      · rw [decide_eq_false h3, find_fst_cons_false, if_neg h3]
        by_cases h4 : m.sys_ram_used > cfg.max_sys_ram_gb
        · rw [decide_eq_true h4, find_fst_cons_true, if_pos h4]
        · rw [decide_eq_false h4, find_fst_cons_false, if_neg h4]
          by_cases h5 : m.eval_tps < cfg.min_eval_tps
          · rw [decide_eq_true h5, find_fst_cons_true, if_pos h5]
          · rw [decide_eq_false h5, find_fst_cons_false, if_neg h5]
            by_cases h6 : m.total_dur > cfg.max_duration_seconds
            · rw [decide_eq_true h6, find_fst_cons_true, if_pos h6]
            · rw [decide_eq_false h6, find_fst_cons_false, if_neg h6, List.find?_nil]

/-- C4: the GPU-utilization-floor criterion fires exactly when GPU checks
are not suppressed and the utilization is strictly below the configured
minimum minus the 0.1 tolerance (given the step was not truncated, the
higher-priority criterion); suppression holds exactly when the log mode is
"none" or the utilization reads exactly 0 on Darwin; and under suppression
the GPU floor never produces a failure, for any metrics and thresholds. -/
theorem c4_gpu_floor_fires_iff (cfg : BenchmarkConfig) (isDarwin : Bool)
    (target : ℤ) (m : StepMetrics) :
    (ignore_gpu_check cfg.log_mode m.gpu_percent isDarwin = true ↔
      (cfg.log_mode = LogMode.noLogs ∨ (m.gpu_percent = 0 ∧ isDarwin = true))) ∧
    (ignore_gpu_check cfg.log_mode m.gpu_percent isDarwin = true →
      (evaluate_stop_criteria cfg (ignore_gpu_check cfg.log_mode m.gpu_percent isDarwin)
          target m).status ≠ Status.failGpuPercent) ∧
    ((target : ℚ) * (99 / 100) ≤ m.actual_ctx →
      ((evaluate_stop_criteria cfg (ignore_gpu_check cfg.log_mode m.gpu_percent isDarwin)
            target m).status = Status.failGpuPercent ↔
        (ignore_gpu_check cfg.log_mode m.gpu_percent isDarwin = false ∧
          m.gpu_percent < cfg.min_gpu_percent - 1 / 10))) := by
  refine ⟨?_, ?_, ?_⟩
  · simp [ignore_gpu_check]
  · intro hig
    unfold evaluate_stop_criteria
    split_ifs with h1 h2 h3 h4 h5 <;> simp_all
  · intro hactual
    have hnt : ¬(m.actual_ctx < (target : ℚ) * (99 / 100)) := not_lt.mpr hactual
    unfold evaluate_stop_criteria
    split_ifs with h1 h2 h3 h4 h5 <;> simp_all

/-- C4 witness: with a 90-percent floor, docker logs, no suppression and a
measured utilization of 85 on a non-truncated step, the evaluator reports
the GPU failure status. -/
theorem c4_witness :
    (evaluate_stop_criteria cfgC (ignore_gpu_check cfgC.log_mode mGpu.gpu_percent false)
        1000 mGpu).status = Status.failGpuPercent :=
  ((c4_gpu_floor_fires_iff cfgC false 1000 mGpu).2.2 (by norm_num [mGpu])).mpr
    ⟨by decide, by norm_num [mGpu, cfgC]⟩

/-- C5: the telemetry extraction scans the log-line window from most recent
to oldest and returns, from the first (latest) matching line, the triple
`(size, vram, percent)` with `percent = vram / size * 100` when `size > 0`
and `0` otherwise; when no line matches, when the log mode is "none", or on
an I/O failure (modelled by `Option.none`), it returns the zero sample;
being a total function, it never raises. -/
theorem c5_telemetry_extraction (mode : LogMode) (acquired : ReadOutcome) :
    (mode = LogMode.noLogs → get_gpu_stats_from_logs mode acquired = (0, 0, 0)) ∧
    (acquired = Option.none → get_gpu_stats_from_logs mode acquired = (0, 0, 0)) ∧
    ((read_log_lines mode acquired).reverse.findSome? id = Option.none →
      get_gpu_stats_from_logs mode acquired = (0, 0, 0)) ∧
    (∀ size vram : ℚ,
      (read_log_lines mode acquired).reverse.findSome? id = Option.some (size, vram) →
      get_gpu_stats_from_logs mode acquired
        = (size, vram, if 0 < size then vram / size * 100 else 0)) := by
  refine ⟨?_, ?_, ?_, ?_⟩
  · intro h
    subst h
    rfl
  · intro h
    subst h
    cases mode <;> rfl
  · intro h
    unfold get_gpu_stats_from_logs
    rw [scan_mem_lines_eq_findSome, h]
  · intro size vram h
    unfold get_gpu_stats_from_logs
    rw [scan_mem_lines_eq_findSome, h]

/-- C5 witness: a single matching line reporting 10 GiB resident and 5 GiB
VRAM yields the sample `(10, 5, 50)`. -/
theorem c5_witness :
    get_gpu_stats_from_logs LogMode.docker
        (Option.some [Option.some ((10 : ℚ), (5 : ℚ))])
      = (10, 5, if (0 : ℚ) < 10 then 5 / 10 * 100 else 0) :=
  (c5_telemetry_extraction LogMode.docker
      (Option.some [Option.some (10, 5)])).2.2.2 10 5 (by decide)

/-- C7: in the step-metric derivation, evaluation and prompt throughput are
token count divided by the `or 1`-guarded duration: the denominator is
never zero, and whenever the nanosecond-to-second converted duration is
zero, `1` is substituted for it. -/
theorem c7_throughput_division_guard (dta : GenerateData) :
    orOne (dta.eval_duration / nanos) ≠ 0 ∧
    orOne (dta.prompt_eval_duration / nanos) ≠ 0 ∧
    eval_tps dta = dta.eval_count / orOne (dta.eval_duration / nanos) ∧
    prompt_tps dta = dta.prompt_eval_count / orOne (dta.prompt_eval_duration / nanos) ∧
    (dta.eval_duration / nanos = 0 → orOne (dta.eval_duration / nanos) = 1) ∧
    (dta.prompt_eval_duration / nanos = 0 → orOne (dta.prompt_eval_duration / nanos) = 1) := by
  refine ⟨?_, ?_, rfl, rfl, ?_, ?_⟩
  · unfold orOne
    split_ifs with h
    · norm_num
    · exact h
  · unfold orOne
    split_ifs with h
    · norm_num
    · exact h
  · intro h
    unfold orOne
    rw [if_pos h]
  · intro h
    unfold orOne
    rw [if_pos h]

/-- C7 witness: on the zero-duration response `dataOk` the guard substitutes
the denominator `1`, which is nonzero. -/
theorem c7_witness :
    orOne (dataOk.eval_duration / nanos) = 1 ∧ orOne (dataOk.eval_duration / nanos) ≠ 0 :=
  ⟨(c7_throughput_division_guard dataOk).2.2.2.2.1 (by norm_num [dataOk, nanos]),
   (c7_throughput_division_guard dataOk).1⟩

/-- C10: for every non-negative integer token count `n`, the synthetic
filler prompt has exactly `int(n * 3.5) = 7 * n / 2` characters. -/
theorem c10_dummy_prompt_length (n : ℕ) :
    (generate_dummy_prompt n).length = 7 * n / 2 := by
  have h60 : code_block.length = 60 := by decide
  simp only [generate_dummy_prompt]
  rw [List.length_take, List.length_flatten, List.map_replicate, List.sum_replicate, h60,
    smul_eq_mul]
  have h1 := Nat.div_add_mod (7 * n / 2) 60
  have h2 : 7 * n / 2 % 60 < 60 := Nat.mod_lt _ (by norm_num)
  omega

/-- C2 counterexample: the configuration phase accepts a step size of `0`
and of `-4096` (both parse as integers, so `validate_int` passes and the
value is stored), refuting that a step size that is not a positive integer
is rejected at configuration time. -/
theorem c2_counterexample :
    accept_step_size (Option.some 0) = Option.some 0 ∧
    accept_step_size (Option.some (-4096)) = Option.some (-4096) := by
  decide

/-- C2 amended: configuration-time validation rejects exactly the entries
whose integer parse fails (non-numeric input); any parseable integer —
including zero and negative values — is accepted and stored unchanged, so
step sizes that are not positive do start a run. -/
theorem c2_validation_parses_only (parsed : Option ℤ) :
    (parsed = Option.none → accept_step_size parsed = Option.none) ∧
    (∀ n : ℤ, parsed = Option.some n → accept_step_size parsed = Option.some n) := by
  cases parsed <;> simp [accept_step_size, validate_int]

/-- C2 witness: the entry parsing to `7` is accepted as-is. -/
theorem c2_witness : accept_step_size (Option.some 7) = Option.some 7 :=
  (c2_validation_parses_only (Option.some 7)).2 7 rfl

/-- C1 counterexample: with a server answering HTTP 500, one probe step is
attempted (one measure request issued) but the CSV receives no row at all,
refuting that a row is written for every attempted step even on error
data. -/
theorem c1_counterexample :
    (run_benchmark_model cfgA false telemZero respHttp500).length = 1 ∧
    csv_rows (run_benchmark_model cfgA false telemZero respHttp500) = [] := by
  decide

/-- C1 amended: a result record is appended exactly for the attempted steps
whose measure request returns HTTP 200; on a non-success status or a
transport error/timeout no row is written for that step (the sweep halts
instead), and each successful step contributes exactly one row. -/
theorem c1_rows_for_success_only (cfg : BenchmarkConfig) (d : Bool) (t : ℤ → ReadOutcome)
    (r : ℤ → MeasureOutcome) (fuel : ℕ) (c : ℤ) :
    (∀ st ∈ sweepFuel cfg d t r fuel c,
      (st.row.isSome = true ↔ ∃ dta, st.outcome = MeasureOutcome.response 200 dta)) ∧
    (csv_rows (sweepFuel cfg d t r fuel c)).length
      = ((sweepFuel cfg d t r fuel c).filter (fun st => st.row.isSome)).length := by
  refine ⟨?_, csv_rows_length_eq_filter _⟩
  intro st hst
  obtain ⟨c', hst'⟩ := sweepFuel_mem cfg d t r fuel c st hst
  subst hst'
  rw [run_step_outcome]
  exact run_step_row_isSome cfg d t c' (r c')

/-- C1 witness: the attempted step of the HTTP-500 trace has no row, and
indeed its outcome is not a 200 response. -/
theorem c1_witness :
    ((run_benchmark_model cfgA false telemZero respHttp500).get ⟨0, by decide⟩).row.isSome = true
      ↔ ∃ dta, ((run_benchmark_model cfgA false telemZero respHttp500).get
          ⟨0, by decide⟩).outcome = MeasureOutcome.response 200 dta :=
  (c1_rows_for_success_only cfgA false telemZero respHttp500 _ _).1 _
    (List.get_mem _ 0 (by decide))

/-- C6: within one model's sweep the sequence of target context sizes
starts at the configured start value and increases by exactly the
configured step size from each step to the next. -/
theorem c6_targets_arithmetic_progression (cfg : BenchmarkConfig) (d : Bool)
    (t : ℤ → ReadOutcome) (r : ℤ → MeasureOutcome) :
    (∀ (st : ProbeStep) (rest : List ProbeStep),
      run_benchmark_model cfg d t r = st :: rest → st.target = cfg.start_ctx) ∧
    ∀ (i : ℕ) (h : i < (run_benchmark_model cfg d t r).length - 1),
      ((run_benchmark_model cfg d t r).get ⟨i + 1, by omega⟩).target
        = ((run_benchmark_model cfg d t r).get ⟨i, by omega⟩).target + cfg.step_size := by
  constructor
  · intro st rest hr
    exact sweepFuel_head_target cfg d t r
      (cfg.max_ctx + 1 - cfg.start_ctx).toNat cfg.start_ctx st rest hr
  · intro i h
    exact List.chain'_iff_get.mp
      (sweepFuel_chain cfg d t r (cfg.max_ctx + 1 - cfg.start_ctx).toNat cfg.start_ctx) i h

/-- C6 witness: in the two-step trace of `cfgB` the first target is the
configured start value and the second target is the first target plus the
configured step size. -/
theorem c6_witness :
    (run_step cfgB false telemZero 1 (respOk 1)).target = cfgB.start_ctx ∧
    ((run_benchmark_model cfgB false telemZero respOk).get
        ⟨0 + 1, by rw [traceB_length]; omega⟩).target
      = ((run_benchmark_model cfgB false telemZero respOk).get
          ⟨0, by rw [traceB_length]; omega⟩).target + cfgB.step_size :=
  ⟨(c6_targets_arithmetic_progression cfgB false telemZero respOk).1
      (run_step cfgB false telemZero 1 (respOk 1))
      [run_step cfgB false telemZero 2 (respOk 2)] traceB_eval,
    (c6_targets_arithmetic_progression cfgB false telemZero respOk).2 0
      (by rw [traceB_length]; omega)⟩

/-- C8: for every configuration with positive step size the sweep loop
terminates: fuel `(max_ctx + 1 - current)` already computes the full trace
(more fuel changes nothing), and the number of attempted steps is bounded
by `(max_ctx - current) / step_size + 1`. -/
theorem c8_sweep_terminates (cfg : BenchmarkConfig) (d : Bool) (t : ℤ → ReadOutcome)
    (r : ℤ → MeasureOutcome) (c : ℤ) (fuel : ℕ) (hstep : 0 < cfg.step_size)
    (hfuel : (cfg.max_ctx + 1 - c).toNat ≤ fuel) :
    sweepFuel cfg d t r fuel c = sweepFuel cfg d t r (cfg.max_ctx + 1 - c).toNat c ∧
    (sweepFuel cfg d t r fuel c).length
      ≤ (cfg.max_ctx - c).toNat / cfg.step_size.toNat + 1 :=
  ⟨sweepFuel_stable cfg d t r hstep fuel _ c hfuel le_rfl,
    sweepFuel_length_le cfg d t r hstep fuel c⟩

/-- C8 witness: for `cfgB` (step 1, ceiling 2) any surplus fuel yields the
same trace as the canonical fuel, and at most two steps run. -/
theorem c8_witness :
    (sweepFuel cfgB false telemZero respHttp500 10 1
        = sweepFuel cfgB false telemZero respHttp500 (cfgB.max_ctx + 1 - 1).toNat 1) ∧
    (sweepFuel cfgB false telemZero respHttp500 10 1).length
      ≤ (cfgB.max_ctx - 1).toNat / cfgB.step_size.toNat + 1 :=
  c8_sweep_terminates cfgB false telemZero respHttp500 1 10 (by decide) (by decide)

/-- C9: every attempted probe step issues its measure request with timeout
`max(60, max_duration_seconds + 15)`, for every configured duration
budget. -/
theorem c9_measure_timeout (cfg : BenchmarkConfig) (d : Bool) (t : ℤ → ReadOutcome)
    (r : ℤ → MeasureOutcome) (fuel : ℕ) (c : ℤ) :
    ∀ st ∈ sweepFuel cfg d t r fuel c,
      st.timeout = max 60 (cfg.max_duration_seconds + 15) := by
  intro st hst
  obtain ⟨c', hst'⟩ := sweepFuel_mem cfg d t r fuel c st hst
  subst hst'
  rw [run_step_timeout]
  rfl

/-- C9 witness: the attempted step of the HTTP-500 trace carries timeout
`max 60 (9999 + 15)`. -/
theorem c9_witness :
    ((run_benchmark_model cfgA false telemZero respHttp500).get ⟨0, by decide⟩).timeout
      = max 60 (cfgA.max_duration_seconds + 15) :=
  c9_measure_timeout cfgA false telemZero respHttp500 _ _ _ (List.get_mem _ 0 (by decide))

end OptimalOllama
